import Mathlib

/-!
Shallow embedding of the SensorApp transport layer and acquisition loop.

Sources embedded here:
- TransportFactory.cpp (two revisions present in the repository; they are
  embedded as TransportFactory.makeV1 and TransportFactory.makeV2),
- TcpSocket.cpp (connect, isConnected, send, sendString, close),
- UdpSocket.cpp (isConnected, send, sendString, close),
- Sensor.cpp (constructor, run, runOnce, buildJsonPayload),
- StringUtils.hpp (iequals) and the helpers those files use.

Interaction with the operating system (the results of the successive
::send calls, and the per-candidate outcomes of the ::socket/::connect
loop) is modelled by passing an explicit trace of OS responses to the
embedded function; the function consumes the trace exactly in the order
the C++ code would issue the corresponding system calls.  C++ doubles are
modelled as rationals; all the values the claims mention are exactly
representable.  C++ exceptions are modelled with Except: the error type
AppError follows the taxonomy of the design document (ConfigurationError
for std invalid_argument raised on bad configuration, ConnectionError for
std runtime_error raised on socket failures).
-/

/-- Error taxonomy of the design document.  The C++ code raises
std::invalid_argument for configuration errors and std::runtime_error for
connection errors; the carried message is the exact C++ message text
except that the single-quote characters some messages put around field
names are omitted. -/
inductive AppError where
  | configurationError (msg : String)
  | connectionError (msg : String)
  deriving DecidableEq, Repr

/-- ASCII lowercase conversion, as C tolower behaves on the default
locale for the ASCII range (all strings compared by the code are ASCII). -/
def ctolower (c : Char) : Char :=
  if 65 ≤ c.toNat ∧ c.toNat ≤ 90 then Char.ofNat (c.toNat + 32) else c

/-- StringUtils::iequals from StringUtils.hpp: std::equal over both whole
strings with a per-character case-insensitive comparator; strings of
different lengths compare unequal.  The strcasecmp call of the older
TransportFactory revision has the same semantics on ASCII strings. -/
def iequals (a b : String) : Bool :=
  a.toList.map ctolower == b.toList.map ctolower

/-- Decides whether the second list occurs as a leading segment of the
first argument list order: leadsWith needle hay. -/
def leadsWith : List Char → List Char → Bool
  | [], _ => true
  | _ :: _, [] => false
  | a :: as, b :: bs => a == b && leadsWith as bs

/-- Decides whether needle occurs as a contiguous run inside hay; this is
the semantics of std::string_view::find(...) != npos used by
Sensor::buildJsonPayload (an empty needle always occurs). -/
def occursIn (needle : List Char) : List Char → Bool
  | [] => needle.isEmpty
  | c :: rest => leadsWith needle (c :: rest) || occursIn needle rest

/-- String front end for occursIn. -/
def hasSub (hay needle : String) : Bool :=
  occursIn needle.toList hay.toList

/-- TransportConfig from ConfigTypes.hpp: kind, host, and an int32_t
port. -/
structure TransportConfig where
  kind : String
  host : String
  port : Int
  deriving DecidableEq, Repr

/-- The two concrete ITransport implementations the factory can build:
TcpTransport and UdpTransport, each holding the destination endpoint.
The port member is the uint16_t the transport constructors receive. -/
inductive Transport where
  | tcp (host : String) (port : Nat)
  | udp (host : String) (port : Nat)
  deriving DecidableEq, Repr

/-- C++ conversion of an int32_t to uint16_t: value modulo 2 to the 16,
as performed implicitly when cfg.port is passed to the TcpTransport or
UdpTransport constructor. -/
def toUInt16Nat (p : Int) : Nat := (p % 65536).toNat

/-- valid_port from the older TransportFactory.cpp revision:
p > 0 && p <= 65535. -/
def valid_port (p : Int) : Bool := decide (0 < p) && decide (p ≤ 65535)

/-- TransportFactory::make, revision at src/unnamed/part_018 lines 12-35:
validates kind, host and port, then dispatches case-insensitively on the
kind.  Construction performs no I/O (the socket constructors only store
the endpoint). -/
def TransportFactory.makeV1 (cfg : TransportConfig) : Except AppError Transport :=
  if cfg.kind = "" then
    .error (.configurationError "TransportFactory: empty kind")
  else if cfg.host = "" then
    .error (.configurationError "TransportFactory: empty host")
  else if !valid_port cfg.port then
    .error (.configurationError "TransportFactory: invalid port (1..65535)")
  else if iequals cfg.kind "tcp" then
    .ok (.tcp cfg.host (toUInt16Nat cfg.port))
  else if iequals cfg.kind "udp" then
    .ok (.udp cfg.host (toUInt16Nat cfg.port))
  else
    .error (.configurationError ("TransportFactory: unsupported kind " ++ cfg.kind))

/-- TransportFactory::make, revision at src/unnamed/part_018 lines 52-68:
validates kind and host only (no port-range check), then dispatches
case-insensitively via StringUtils::iequals.  Construction performs no
I/O. -/
def TransportFactory.makeV2 (cfg : TransportConfig) : Except AppError Transport :=
  if cfg.kind = "" then
    .error (.configurationError "TransportFactory: empty kind")
  else if cfg.host = "" then
    .error (.configurationError "TransportFactory: empty host")
  else if iequals cfg.kind "tcp" then
    .ok (.tcp cfg.host (toUInt16Nat cfg.port))
  else if iequals cfg.kind "udp" then
    .ok (.udp cfg.host (toUInt16Nat cfg.port))
  else
    .error (.configurationError ("TransportFactory: unsupported kind " ++ cfg.kind))

/-- Validity of a factory input in the words of the specification: kind
non-empty and case-insensitively tcp or udp, host non-empty, port in
[1, 65535].  This definition follows the spec text and exists to be
compared with the code-derived factory functions. -/
def specValidTransportInput (cfg : TransportConfig) : Prop :=
  cfg.kind ≠ "" ∧ cfg.host ≠ "" ∧ 0 < cfg.port ∧ cfg.port ≤ 65535 ∧
    (iequals cfg.kind "tcp" = true ∨ iequals cfg.kind "udp" = true)

instance (cfg : TransportConfig) : Decidable (specValidTransportInput cfg) := by
  unfold specValidTransportInput; infer_instance

/-- True exactly when the factory result is a raised ConfigurationError. -/
def raisesConfig : Except AppError Transport → Bool
  | .error (.configurationError _) => true
  | _ => false

/-- The errno value EINTR (interrupted system call) used by both socket
send loops. -/
def EINTR : Nat := 4

/-- The errno value ECONNREFUSED substituted by TcpSocket::connect when
every candidate failed but no errno was recorded. -/
def ECONNREFUSED : Nat := 111

/-- Text of the C library strerror for the errno values exercised in
this development (glibc wording); other codes map to the generic glibc
fallback text.  strerror depends only on the errno value. -/
def strerror (e : Nat) : String :=
  if e = 4 then "Interrupted system call"
  else if e = 32 then "Broken pipe"
  else if e = 111 then "Connection refused"
  else "Unknown error " ++ toString e

/-- Observable state of a TcpSocket: the stored endpoint and the POSIX
file descriptor, where a negative fd means not connected. -/
structure TcpSocketState where
  host : String
  port : Nat
  fd : Int
  deriving DecidableEq, Repr

/-- Observable state of a UdpSocket, identical layout to TcpSocketState. -/
structure UdpSocketState where
  host : String
  port : Nat
  fd : Int
  deriving DecidableEq, Repr

/-- TcpSocket::isConnected: fd_ >= 0. -/
def TcpSocket.isConnected (s : TcpSocketState) : Bool := s.fd ≥ 0

/-- UdpSocket::isConnected: fd_ >= 0. -/
def UdpSocket.isConnected (s : UdpSocketState) : Bool := s.fd ≥ 0

/-- TcpSocket::close: early return when fd_ < 0, otherwise shutdown and
close the descriptor (pure OS release, no observable effect beyond the
fd) and set fd_ to -1.  The C++ function is noexcept; accordingly the
model is a total function into the state, with no error outcome. -/
def TcpSocket.close (s : TcpSocketState) : TcpSocketState :=
  if s.fd < 0 then s else ⟨s.host, s.port, -1⟩

/-- UdpSocket::close: same shape as TcpSocket::close and likewise
noexcept. -/
def UdpSocket.close (s : UdpSocketState) : UdpSocketState :=
  if s.fd < 0 then s else ⟨s.host, s.port, -1⟩

/-- One response of the operating system to one ::send call: either the
returned nonnegative byte count, or -1 together with the errno value. -/
inductive OsRet where
  | ret (n : Nat)
  | errn (e : Nat)
  deriving DecidableEq, Repr

/-- Loop body of TcpSocket::send over a trace of OS responses.  len is
the original request (returned on success), the first Nat argument is
bytesLeft.  Returns the outcome (none when the trace is too short to
decide the loop) paired with the number of ::send calls consumed. -/
def TcpSocket.sendAux (len : Nat) : Nat → List OsRet → Option (Except AppError Nat) × Nat
  | 0, _ => (some (.ok len), 0)
  | _ + 1, [] => (none, 0)
  | b + 1, .ret n :: rest =>
    if 0 < n then
      let r := TcpSocket.sendAux len (b + 1 - n) rest
      (r.1, r.2 + 1)
    else
      (some (.error (.connectionError "send: connection closed by peer")), 1)
  | b + 1, .errn e :: rest =>
    if e = EINTR then
      let r := TcpSocket.sendAux len (b + 1) rest
      (r.1, r.2 + 1)
    else
      (some (.error (.connectionError ("send: " ++ strerror e))), 1)

/-- TcpSocket::send: raises when not connected (before any OS call),
otherwise runs the partial-write loop until all len bytes are written. -/
def TcpSocket.send (s : TcpSocketState) (len : Nat) (trace : List OsRet) :
    Option (Except AppError Nat) × Nat :=
  if TcpSocket.isConnected s = false then
    (some (.error (.connectionError "send: not connected")), 0)
  else
    TcpSocket.sendAux len len trace

/-- Loop body of UdpSocket::send over a trace of OS responses: a
nonnegative return n is final (short-send error when n differs from len,
success otherwise); EINTR retries; any other errno is final. -/
def UdpSocket.sendAux (len : Nat) : List OsRet → Option (Except AppError Nat) × Nat
  | [] => (none, 0)
  | .ret n :: _ =>
    if n ≠ len then
      (some (.error (.connectionError "udp send: short datagram send")), 1)
    else
      (some (.ok n), 1)
  | .errn e :: rest =>
    if e = EINTR then
      let r := UdpSocket.sendAux len rest
      (r.1, r.2 + 1)
    else
      (some (.error (.connectionError ("udp send: " ++ strerror e))), 1)

/-- UdpSocket::send: raises when not connected (before any OS call),
otherwise issues the single-datagram send. -/
def UdpSocket.send (s : UdpSocketState) (len : Nat) (trace : List OsRet) :
    Option (Except AppError Nat) × Nat :=
  if UdpSocket.isConnected s = false then
    (some (.error (.connectionError "udp send: not connected")), 0)
  else
    UdpSocket.sendAux len trace

/-- Outcome of one candidate address in the TcpSocket::connect loop:
::socket failed with errno, ::connect failed with errno, or ::connect
succeeded yielding the socket descriptor. -/
inductive CandidateOutcome where
  | sockFail (e : Nat)
  | connFail (e : Nat)
  | success (sock : Nat)
  deriving DecidableEq, Repr

/-- The candidate walk of TcpSocket::connect, carrying lastErrno exactly
as the C++ loop does: updated on every failure, untouched on success
(success ends the loop).  When the list is exhausted, errno is set to
lastErrno when nonzero and to ECONNREFUSED otherwise, and the raised
message is systemErr("connect"), that is "connect: " followed by the
strerror text. -/
def TcpSocket.tryCandidates (s : TcpSocketState) (lastErrno : Nat) :
    List CandidateOutcome → Except AppError TcpSocketState
  | [] =>
    let e := if lastErrno ≠ 0 then lastErrno else ECONNREFUSED
    .error (.connectionError ("connect: " ++ strerror e))
  | .sockFail e :: rest => TcpSocket.tryCandidates s e rest
  | .connFail e :: rest => TcpSocket.tryCandidates s e rest
  | .success sock :: _ => .ok ⟨s.host, s.port, Int.ofNat sock⟩

/-- TcpSocket::connect on the path where getaddrinfo has resolved the
endpoint to a candidate list whose per-candidate outcomes form the given
trace: no-op when already connected, invalid-argument on an empty host,
otherwise the candidate walk. -/
def TcpSocket.connect (s : TcpSocketState) (outcomes : List CandidateOutcome) :
    Except AppError TcpSocketState :=
  if TcpSocket.isConnected s = true then .ok s
  else if s.host = "" then
    .error (.configurationError "TcpSocket: host cannot be empty")
  else TcpSocket.tryCandidates s 0 outcomes

/-- True when no candidate in the trace succeeds. -/
def allFailed : List CandidateOutcome → Bool
  | [] => true
  | .sockFail _ :: rest => allFailed rest
  | .connFail _ :: rest => allFailed rest
  | .success _ :: _ => false

/-- Value of the lastErrno variable after the whole candidate walk,
starting from acc. -/
def lastErrOf (acc : Nat) : List CandidateOutcome → Nat
  | [] => acc
  | .sockFail e :: rest => lastErrOf e rest
  | .connFail e :: rest => lastErrOf e rest
  | .success _ :: rest => lastErrOf acc rest

/-- SensorConfig from ConfigTypes.hpp.  The two unordered string maps are
modelled as association lists with unique keys; lookup is exact-key
lookup as in unordered_map::find. -/
structure SensorConfig where
  sensorId : String
  intervalSeconds : Int
  units : List (String × String)
  metadata : List (String × String)
  deriving DecidableEq, Repr

/-- The configuration-derived state a constructed Sensor carries for its
whole lifetime (config_, sensorId_, intervalSeconds_).  No operation of
the class mutates these members after construction. -/
structure SensorState where
  config : SensorConfig
  sensorId : String
  intervalSeconds : Int
  deriving DecidableEq, Repr

/-- Sensor::Sensor: copies the configuration, then validates sensorId_
and intervalSeconds_ in that order, raising std::invalid_argument (a
ConfigurationError in the spec taxonomy) before any I/O can happen; the
constructor touches no socket and no data source. -/
def Sensor.construct (cfg : SensorConfig) : Except AppError SensorState :=
  if cfg.sensorId = "" then
    .error (.configurationError "Sensor: sensorId must not be empty")
  else if cfg.intervalSeconds ≤ 0 then
    .error (.configurationError "Sensor: intervalSeconds must be > 0")
  else
    .ok ⟨cfg, cfg.sensorId, cfg.intervalSeconds⟩

/-- JSON documents as built by Sensor::buildJsonPayload with
nlohmann::json.  Objects are association lists of key and value; the
claims below only consult objects through key lookup, so the key order
of the nlohmann object representation is immaterial here. -/
inductive Json where
  | str (s : String)
  | num (q : Rat)
  | int (n : Int)
  | obj (fields : List (String × Json))

/-- Key lookup in a JSON object (none on non-objects and absent keys). -/
def Json.getKey : Json → String → Option Json
  | .obj fields, k => fields.lookup k
  | _, _ => none

/-- std::round: round half away from zero, on rationals. -/
def cround (x : Rat) : Int :=
  if 0 ≤ x then Int.floor (x + 1 / 2) else Int.ceil (x - 1 / 2)

/-- The roundToDecimals lambda of Sensor::buildJsonPayload:
std::round(value * scale) / scale with scale = 10 to the decimals. -/
def roundToDecimals (value : Rat) (decimals : Nat) : Rat :=
  ((cround (value * (10 : Rat) ^ decimals) : Rat)) / (10 : Rat) ^ decimals

/-- The inferUnitFromReadingName lambda of Sensor::buildJsonPayload: the
configured units map is consulted first; only when the metric name is
absent there do the name-based heuristics run, in the source order of
the substring tests; unmatched names fall through to unknown. -/
def Sensor.inferUnitFromReadingName (units : List (String × String))
    (readingName : String) : String :=
  match units.lookup readingName with
  | some u => u
  | none =>
    if hasSub readingName "width" || hasSub readingName "height" then "pixels"
    else if hasSub readingName "channels" then "count"
    else if hasSub readingName "bytes" || hasSub readingName "size" then "bytes"
    else if hasSub readingName "brightness" || hasSub readingName "luma" then "intensity"
    else "unknown"

/-- Sensor::buildJsonPayload.  The C++ function reads the wall clock for
timestamp_ms; here the timestamp is an explicit argument.  sensor_id is
always written; metadata is written only when the configured map is
non-empty; each reading becomes an object with its rounded value and
resolved unit; the readings object is attached only when non-empty.  The
final dump-to-text step with the trailing newline is not modelled; the
claims concern the document structure. -/
def Sensor.buildJsonPayload (st : SensorState) (timestampMs : Int)
    (readingsMap : List (String × Rat)) : Json :=
  let base := [("sensor_id", Json.str st.sensorId)]
  let withMeta :=
    if st.config.metadata.isEmpty then base
    else base ++ [("metadata", Json.obj (st.config.metadata.map (fun p => (p.1, Json.str p.2))))]
  let withTs := withMeta ++ [("timestamp_ms", Json.int timestampMs)]
  let readingsJson := readingsMap.map (fun p =>
    (p.1, Json.obj [("value", Json.num (roundToDecimals p.2 3)),
                    ("unit", Json.str (Sensor.inferUnitFromReadingName st.config.units p.1))]))
  if readingsJson.isEmpty then Json.obj withTs
  else Json.obj (withTs ++ [("readings", Json.obj readingsJson)])

/-- Events a run of the acquisition loop emits, in order: tick stands
for one runOnce call (read, serialize, send one payload), sleepSecs for
one this_thread::sleep_for of the given number of seconds. -/
inductive LoopEvent where
  | tick
  | sleepSecs (n : Int)
  deriving DecidableEq, Repr

/-- True exactly on tick events. -/
def LoopEvent.isTick : LoopEvent → Bool
  | .tick => true
  | _ => false

/-- Sensor::run over the sequence of values the successive atomic reads
of the running flag observe, one read per loop iteration, listed in
observation order: while the flag reads true, one runOnce then one sleep
of intervalSeconds_; the first false read ends the loop at once.  An
exhausted sample list also ends the recursion (the trace horizon). -/
def Sensor.run (intervalSeconds : Int) : List Bool → List LoopEvent
  | [] => []
  | false :: _ => []
  | true :: rest =>
    .tick :: .sleepSecs intervalSeconds :: Sensor.run intervalSeconds rest

/-- Number of runOnce calls (payloads sent) in an event list. -/
def countTicks (evs : List LoopEvent) : Nat := evs.countP LoopEvent.isTick

deriving instance DecidableEq for Except

/-- Strings that compare equal case-insensitively have the same length. -/
theorem iequals_length {a b : String} (h : iequals a b = true) :
    a.toList.length = b.toList.length := by
  unfold iequals at h
  have h2 : a.toList.map ctolower = b.toList.map ctolower := by
    simpa using h
  have := congrArg List.length h2
  simpa using this

/-- A string that compares case-insensitively equal to tcp is non-empty. -/
theorem iequals_tcp_ne_empty {a : String} (h : iequals a "tcp" = true) : a ≠ "" := by
  intro he
  subst he
  simpa using iequals_length h

/-- A string that compares case-insensitively equal to udp is non-empty. -/
theorem iequals_udp_ne_empty {a : String} (h : iequals a "udp" = true) : a ≠ "" := by
  intro he
  subst he
  simpa using iequals_length h

/-- Case-insensitive equality transports the lowercase image. -/
theorem iequals_map_eq {a b : String} (h : iequals a b = true) :
    a.toList.map ctolower = b.toList.map ctolower := by
  unfold iequals at h
  simpa using h

/-- No string is case-insensitively equal to both tcp and udp. -/
theorem not_iequals_tcp_udp {a : String} (ht : iequals a "tcp" = true)
    (hu : iequals a "udp" = true) : False := by
  have h1 := iequals_map_eq ht
  have h2 := iequals_map_eq hu
  rw [h1] at h2
  exact absurd h2 (by decide)

/-- valid_port decides exactly the range (0, 65535]. -/
theorem valid_port_iff (p : Int) : valid_port p = true ↔ 0 < p ∧ p ≤ 65535 := by
  simp [valid_port]

/-- C1 counterexample: the TransportFactory::make revision at
src/unnamed/part_018 lines 52-68 does not validate the port; on the
invalid input (kind tcp, host h, port 0) it raises nothing and returns a
constructed TcpTransport, refuting the claimed equivalence between
invalid input and a raised ConfigurationError. -/
theorem transportFactory_port_unchecked_cex :
    ¬ specValidTransportInput ⟨"tcp", "h", 0⟩ ∧
      TransportFactory.makeV2 ⟨"tcp", "h", 0⟩ = .ok (.tcp "h" 0) :=
  ⟨by decide, by decide⟩

/-- C1 (amended): the revision of TransportFactory::make at
src/unnamed/part_018 lines 12-35 raises a ConfigurationError exactly on
the invalid inputs of the claim (empty kind, empty host, port outside
[1, 65535], or a kind other than case-insensitive tcp or udp) and
returns the matching concrete transport on every valid input; the
revision at lines 52-68 raises a ConfigurationError exactly when the
kind is empty, the host is empty, or the kind is unsupported, passes the
port through without a range check, and otherwise also returns the
matching concrete transport.  Neither revision performs I/O. -/
theorem transportFactory_make_validation_amended :
    (∀ cfg : TransportConfig,
        raisesConfig (TransportFactory.makeV1 cfg) = true ↔ ¬ specValidTransportInput cfg)
    ∧ (∀ cfg : TransportConfig, specValidTransportInput cfg →
        (iequals cfg.kind "tcp" = true →
          TransportFactory.makeV1 cfg = .ok (.tcp cfg.host (toUInt16Nat cfg.port)))
        ∧ (iequals cfg.kind "udp" = true →
          TransportFactory.makeV1 cfg = .ok (.udp cfg.host (toUInt16Nat cfg.port))))
    ∧ (∀ cfg : TransportConfig,
        raisesConfig (TransportFactory.makeV2 cfg) = true ↔
          (cfg.kind = "" ∨ cfg.host = "" ∨
            (iequals cfg.kind "tcp" = false ∧ iequals cfg.kind "udp" = false)))
    ∧ (∀ cfg : TransportConfig, cfg.host ≠ "" →
        (iequals cfg.kind "tcp" = true →
          TransportFactory.makeV2 cfg = .ok (.tcp cfg.host (toUInt16Nat cfg.port)))
        ∧ (iequals cfg.kind "udp" = true →
          TransportFactory.makeV2 cfg = .ok (.udp cfg.host (toUInt16Nat cfg.port)))) := by
  refine ⟨?_, ?_, ?_, ?_⟩
  · intro cfg
    unfold TransportFactory.makeV1 specValidTransportInput
    split_ifs with h1 h2 h3 h4 h5
    · simp [raisesConfig, h1]
    · simp [raisesConfig, h2]
    · have h3a : valid_port cfg.port = false := by simpa using h3
      simp only [raisesConfig, true_iff]
      intro hv
      have : valid_port cfg.port = true := (valid_port_iff cfg.port).2 ⟨hv.2.2.1, hv.2.2.2.1⟩
      rw [h3a] at this
      cases this
    · have h3a : valid_port cfg.port = true := by simpa using h3
      have hp := (valid_port_iff cfg.port).1 h3a
      simp only [raisesConfig, Bool.false_eq_true, false_iff, not_not]
      exact ⟨h1, h2, hp.1, hp.2, Or.inl h4⟩
    · have h3a : valid_port cfg.port = true := by simpa using h3
      have hp := (valid_port_iff cfg.port).1 h3a
      simp only [raisesConfig, Bool.false_eq_true, false_iff, not_not]
      exact ⟨h1, h2, hp.1, hp.2, Or.inr h5⟩
    · simp only [raisesConfig, true_iff]
      intro hv
      rcases hv.2.2.2.2 with h | h
      · exact absurd h h4
      · exact absurd h h5
  · intro cfg hv
    obtain ⟨hk, hh, hp1, hp2, _⟩ := hv
    have hvp : valid_port cfg.port = true := (valid_port_iff cfg.port).2 ⟨hp1, hp2⟩
    constructor
    · intro ht
      unfold TransportFactory.makeV1
      rw [if_neg hk, if_neg hh]
      simp [hvp, ht]
    · intro hu
      by_cases ht : iequals cfg.kind "tcp" = true
      · exact absurd (not_iequals_tcp_udp ht hu) (by simp)
      · unfold TransportFactory.makeV1
        rw [if_neg hk, if_neg hh]
        simp [hvp, ht, hu]
  · intro cfg
    unfold TransportFactory.makeV2
    split_ifs with h1 h2 h3 h4
    · simp [raisesConfig, h1]
    · simp [raisesConfig, h2]
    · simp only [raisesConfig, Bool.false_eq_true, false_iff]
      intro hcon
      rcases hcon with h | h | ⟨hf, _⟩
      · exact h1 h
      · exact h2 h
      · rw [h3] at hf
        cases hf
    · simp only [raisesConfig, Bool.false_eq_true, false_iff]
      intro hcon
      rcases hcon with h | h | ⟨_, hf⟩
      · exact h1 h
      · exact h2 h
      · rw [h4] at hf
        cases hf
    · simp only [raisesConfig, true_iff]
      right; right
      exact ⟨by simpa using h3, by simpa using h4⟩
  · intro cfg hh
    constructor
    · intro ht
      unfold TransportFactory.makeV2
      rw [if_neg (iequals_tcp_ne_empty ht), if_neg hh]
      simp [ht]
    · intro hu
      by_cases ht : iequals cfg.kind "tcp" = true
      · exact absurd (not_iequals_tcp_udp ht hu) (by simp)
      · unfold TransportFactory.makeV2
        rw [if_neg (iequals_udp_ne_empty hu), if_neg hh]
        simp [ht, hu]

/-- C1 witness: the amended theorem applied to the valid input
(kind TCP, host localhost, port 1111), the case the repository test
suite also exercises. -/
theorem transportFactory_make_validation_amended_witness :
    TransportFactory.makeV1 ⟨"TCP", "localhost", 1111⟩ =
      .ok (.tcp "localhost" (toUInt16Nat 1111)) :=
  (transportFactory_make_validation_amended.2.1 ⟨"TCP", "localhost", 1111⟩ (by decide)).1
    (by decide)

/-- The candidate walk of TcpSocket::connect, when every candidate
fails, raises the systemErr message for the final lastErrno value (with
the ECONNREFUSED fallback). -/
theorem tryCandidates_allFailed (s : TcpSocketState) :
    ∀ (outcomes : List CandidateOutcome), allFailed outcomes = true → ∀ acc : Nat,
      TcpSocket.tryCandidates s acc outcomes =
        .error (.connectionError ("connect: " ++
          strerror (if lastErrOf acc outcomes ≠ 0 then lastErrOf acc outcomes
                    else ECONNREFUSED))) := by
  intro outcomes
  induction outcomes with
  | nil => intro _ acc; simp [TcpSocket.tryCandidates, lastErrOf]
  | cons head rest ih =>
    intro hf acc
    cases head with
    | sockFail e =>
      have hf2 : allFailed rest = true := by simpa [allFailed] using hf
      simp only [TcpSocket.tryCandidates, lastErrOf]
      exact ih hf2 e
    | connFail e =>
      have hf2 : allFailed rest = true := by simpa [allFailed] using hf
      simp only [TcpSocket.tryCandidates, lastErrOf]
      exact ih hf2 e
    | success sock => simp [allFailed] at hf

/-- C2 counterexample: an unconnected socket for endpoint 203.0.113.9
port 4444 whose single resolved candidate fails to connect with errno
111 raises ConnectionError with message "connect: Connection refused";
the message mentions neither the host nor the port of the failing
endpoint, refuting the claim that it names them. -/
theorem tcpConnect_message_lacks_endpoint_cex :
    TcpSocket.connect ⟨"203.0.113.9", 4444, -1⟩ [.connFail 111] =
      .error (.connectionError "connect: Connection refused")
    ∧ hasSub "connect: Connection refused" "203.0.113.9" = false
    ∧ hasSub "connect: Connection refused" "4444" = false :=
  ⟨by decide, by decide, by decide⟩

/-- C2 (amended): when the endpoint has been resolved and every
candidate address fails, TcpSocket::connect raises a ConnectionError
carrying the last observed low-level OS error (falling back to
ECONNREFUSED when no errno was recorded); its message names the
operation and the OS error text, but not the host or port of the
failing endpoint (the endpoint appears only in the separate resolution
failure message). -/
theorem tcpConnect_all_candidates_fail_amended :
    ∀ (s : TcpSocketState) (outcomes : List CandidateOutcome),
      TcpSocket.isConnected s = false → s.host ≠ "" → allFailed outcomes = true →
      TcpSocket.connect s outcomes =
        .error (.connectionError ("connect: " ++
          strerror (if lastErrOf 0 outcomes ≠ 0 then lastErrOf 0 outcomes
                    else ECONNREFUSED))) := by
  intro s outcomes hc hh hf
  unfold TcpSocket.connect
  rw [hc]
  simp only [Bool.false_eq_true, if_false, if_neg hh]
  exact tryCandidates_allFailed s outcomes hf 0

/-- C2 witness: the amended theorem applied to the concrete failing
endpoint and candidate trace of the counterexample. -/
theorem tcpConnect_all_candidates_fail_amended_witness :
    TcpSocket.connect ⟨"203.0.113.9", 4444, -1⟩ [.connFail 111] =
      .error (.connectionError ("connect: " ++
        strerror (if lastErrOf 0 [CandidateOutcome.connFail 111] ≠ 0 then
                    lastErrOf 0 [CandidateOutcome.connFail 111]
                  else ECONNREFUSED))) :=
  tcpConnect_all_candidates_fail_amended ⟨"203.0.113.9", 4444, -1⟩ [.connFail 111]
    (by decide) (by decide) (by decide)

/-- When every ::send call accepts a positive byte count and the counts
sum to the whole request, the TcpSocket send loop consumes exactly one
trace entry per call and succeeds with the full length. -/
theorem tcp_sendAux_all (len : Nat) (ns : List Nat) (hpos : ∀ n ∈ ns, 0 < n) :
    TcpSocket.sendAux len ns.sum (ns.map OsRet.ret) = (some (.ok len), ns.length) := by
  induction ns with
  | nil => simp [TcpSocket.sendAux]
  | cons n rest ih =>
    have hn : 0 < n := hpos n (by simp)
    have hrest : ∀ m ∈ rest, 0 < m := fun m hm => hpos m (by simp [hm])
    obtain ⟨m, hm⟩ : ∃ m, n + rest.sum = m + 1 := ⟨n + rest.sum - 1, by omega⟩
    have hsub : m + 1 - n = rest.sum := by omega
    simp only [List.sum_cons, List.map_cons, hm, List.length_cons]
    simp only [TcpSocket.sendAux, hn, if_pos]
    rw [hsub, ih hrest]

/-- C3: the TcpSocket send loop writes as many bytes as the OS accepts
per call and returns the full length once the accepted counts reach the
request (first conjunct); a zero return raises the peer-closed
ConnectionError immediately, after exactly one further OS call and
independently of the rest of the trace, so it can never loop (second
conjunct, with totality of the structurally recursive loop); EINTR is
retried silently (third conjunct); any other errno ends the loop with a
ConnectionError (fourth conjunct). -/
theorem tcpSend_sendall_semantics :
    (∀ (s : TcpSocketState) (ns : List Nat), TcpSocket.isConnected s = true →
        (∀ n ∈ ns, 0 < n) →
        TcpSocket.send s ns.sum (ns.map OsRet.ret) = (some (.ok ns.sum), ns.length))
    ∧ (∀ (len b : Nat) (rest : List OsRet), 0 < b →
        TcpSocket.sendAux len b (.ret 0 :: rest) =
          (some (.error (.connectionError "send: connection closed by peer")), 1))
    ∧ (∀ (len b : Nat) (rest : List OsRet), 0 < b →
        TcpSocket.sendAux len b (.errn EINTR :: rest) =
          ((TcpSocket.sendAux len b rest).1, (TcpSocket.sendAux len b rest).2 + 1))
    ∧ (∀ (len b e : Nat) (rest : List OsRet), 0 < b → e ≠ EINTR →
        TcpSocket.sendAux len b (.errn e :: rest) =
          (some (.error (.connectionError ("send: " ++ strerror e))), 1)) := by
  refine ⟨?_, ?_, ?_, ?_⟩
  · intro s ns hc hpos
    unfold TcpSocket.send
    rw [hc]
    simp only [Bool.true_eq_false, if_false]
    exact tcp_sendAux_all ns.sum ns hpos
  · intro len b rest hb
    obtain ⟨m, hm⟩ : ∃ m, b = m + 1 := ⟨b - 1, by omega⟩
    subst hm
    simp [TcpSocket.sendAux]
  · intro len b rest hb
    obtain ⟨m, hm⟩ : ∃ m, b = m + 1 := ⟨b - 1, by omega⟩
    subst hm
    simp [TcpSocket.sendAux]
  · intro len b e rest hb he
    obtain ⟨m, hm⟩ : ∃ m, b = m + 1 := ⟨b - 1, by omega⟩
    subst hm
    simp [TcpSocket.sendAux, he]

/-- C3 witness: a connected socket sending 5 bytes that the OS accepts
in two partial writes of 3 and 2 bytes returns the full length after
exactly two OS calls. -/
theorem tcpSend_sendall_semantics_witness :
    TcpSocket.send ⟨"h", 1, 3⟩ ([3, 2] : List Nat).sum ([3, 2].map OsRet.ret) =
      (some (.ok ([3, 2] : List Nat).sum), ([3, 2] : List Nat).length) :=
  tcpSend_sendall_semantics.1 ⟨"h", 1, 3⟩ [3, 2] (by decide) (by decide)

/-- One leading EINTR response adds one retry of the UdpSocket send
call and leaves the outcome to the remaining trace. -/
theorem udp_sendAux_eintr (len : Nat) (rest : List OsRet) :
    UdpSocket.sendAux len (OsRet.errn EINTR :: rest) =
      ((UdpSocket.sendAux len rest).1, (UdpSocket.sendAux len rest).2 + 1) := by
  simp [UdpSocket.sendAux]

/-- Leading EINTR responses only add retries of the one UdpSocket send
call; the outcome is decided by the first non-interrupted response. -/
theorem udp_sendAux_replicate (len k : Nat) (tail : List OsRet) :
    UdpSocket.sendAux len (List.replicate k (OsRet.errn EINTR) ++ tail) =
      ((UdpSocket.sendAux len tail).1, (UdpSocket.sendAux len tail).2 + k) := by
  induction k with
  | zero => simp
  | succ k ih =>
    rw [List.replicate_succ, List.cons_append, udp_sendAux_eintr, ih]
    rw [Prod.ext_iff]
    exact ⟨rfl, by omega⟩

/-- C4: with the socket connected, UdpSocket::send issues exactly one
underlying OS send call, preceded only by EINTR-interrupted attempts
that are silently retried; a response reporting the full requested
length returns that length (first conjunct), a response reporting any
other count raises the short-datagram ConnectionError without any
further OS call, in particular without re-sending a fragment (second
conjunct, the count of consumed OS responses is k + 1 and the result
ignores the rest of the trace), and a non-EINTR errno raises a
ConnectionError (third conjunct). -/
theorem udpSend_single_datagram_semantics :
    (∀ (s : UdpSocketState) (len k : Nat) (rest : List OsRet),
        UdpSocket.isConnected s = true →
        UdpSocket.send s len (List.replicate k (OsRet.errn EINTR) ++ OsRet.ret len :: rest) =
          (some (.ok len), k + 1))
    ∧ (∀ (s : UdpSocketState) (len n k : Nat) (rest : List OsRet),
        UdpSocket.isConnected s = true → n ≠ len →
        UdpSocket.send s len (List.replicate k (OsRet.errn EINTR) ++ OsRet.ret n :: rest) =
          (some (.error (.connectionError "udp send: short datagram send")), k + 1))
    ∧ (∀ (s : UdpSocketState) (len e k : Nat) (rest : List OsRet),
        UdpSocket.isConnected s = true → e ≠ EINTR →
        UdpSocket.send s len (List.replicate k (OsRet.errn EINTR) ++ OsRet.errn e :: rest) =
          (some (.error (.connectionError ("udp send: " ++ strerror e))), k + 1)) := by
  refine ⟨?_, ?_, ?_⟩
  · intro s len k rest hc
    unfold UdpSocket.send
    rw [hc]
    simp only [Bool.true_eq_false, if_false]
    rw [udp_sendAux_replicate]
    simp [UdpSocket.sendAux]
    omega
  · intro s len n k rest hc hn
    unfold UdpSocket.send
    rw [hc]
    simp only [Bool.true_eq_false, if_false]
    rw [udp_sendAux_replicate]
    simp [UdpSocket.sendAux, hn]
    omega
  · intro s len e k rest hc he
    unfold UdpSocket.send
    rw [hc]
    simp only [Bool.true_eq_false, if_false]
    rw [udp_sendAux_replicate]
    simp [UdpSocket.sendAux, he]
    omega

/-- C4 witness: a connected datagram socket asked to send 5 bytes whose
one OS call, after one EINTR retry, accepts all 5 bytes returns 5 after
two OS calls in total. -/
theorem udpSend_single_datagram_semantics_witness :
    UdpSocket.send ⟨"h", 9000, 3⟩ 5
        (List.replicate 1 (OsRet.errn EINTR) ++ OsRet.ret 5 :: []) =
      (some (.ok 5), 1 + 1) :=
  udpSend_single_datagram_semantics.1 ⟨"h", 9000, 3⟩ 5 1 [] (by decide)

/-- C5: a send on either socket while not connected raises a
ConnectionError whose message contains "not connected", and consumes no
OS response at all (zero underlying ::send calls), for every requested
length and every OS trace. -/
theorem send_not_connected_raises :
    (∀ (s : TcpSocketState) (len : Nat) (trace : List OsRet),
        TcpSocket.isConnected s = false →
        TcpSocket.send s len trace =
          (some (.error (.connectionError "send: not connected")), 0))
    ∧ (∀ (s : UdpSocketState) (len : Nat) (trace : List OsRet),
        UdpSocket.isConnected s = false →
        UdpSocket.send s len trace =
          (some (.error (.connectionError "udp send: not connected")), 0))
    ∧ hasSub "send: not connected" "not connected" = true
    ∧ hasSub "udp send: not connected" "not connected" = true := by
  refine ⟨?_, ?_, by decide, by decide⟩
  · intro s len trace hc
    unfold TcpSocket.send
    rw [hc]
    simp
  · intro s len trace hc
    unfold UdpSocket.send
    rw [hc]
    simp

/-- C5 witness: a TcpSocket in the never-established state (fd -1)
raises the not-connected ConnectionError with zero OS calls even though
the trace would allow a successful write. -/
theorem send_not_connected_raises_witness :
    TcpSocket.send ⟨"h", 1, -1⟩ 5 [OsRet.ret 5] =
      (some (.error (.connectionError "send: not connected")), 0) :=
  send_not_connected_raises.1 ⟨"h", 1, -1⟩ 5 [OsRet.ret 5] (by decide)

/-- C6: close on either socket is idempotent, and after a close (one or
any number of iterated calls, from any state: established, already
closed, or never established) isConnected is false.  Both embedded
close functions are total functions into the state type, the image of
the C++ noexcept close, so no call can raise. -/
theorem close_idempotent_disconnects :
    (∀ s : TcpSocketState, TcpSocket.close (TcpSocket.close s) = TcpSocket.close s)
    ∧ (∀ s : TcpSocketState, TcpSocket.isConnected (TcpSocket.close s) = false)
    ∧ (∀ (s : TcpSocketState) (n : Nat),
        TcpSocket.isConnected (TcpSocket.close^[n + 1] s) = false)
    ∧ (∀ s : UdpSocketState, UdpSocket.close (UdpSocket.close s) = UdpSocket.close s)
    ∧ (∀ s : UdpSocketState, UdpSocket.isConnected (UdpSocket.close s) = false)
    ∧ (∀ (s : UdpSocketState) (n : Nat),
        UdpSocket.isConnected (UdpSocket.close^[n + 1] s) = false) := by
  have htc : ∀ s : TcpSocketState, TcpSocket.isConnected (TcpSocket.close s) = false := by
    intro s
    unfold TcpSocket.close TcpSocket.isConnected
    split_ifs with h
    · simpa using h
    · simp
  have huc : ∀ s : UdpSocketState, UdpSocket.isConnected (UdpSocket.close s) = false := by
    intro s
    unfold UdpSocket.close UdpSocket.isConnected
    split_ifs with h
    · simpa using h
    · simp
  have htfix : ∀ s : TcpSocketState, TcpSocket.close (TcpSocket.close s) = TcpSocket.close s := by
    intro s
    have := htc s
    unfold TcpSocket.isConnected at this
    unfold TcpSocket.close
    rw [if_pos]
    simpa using this
  have hufix : ∀ s : UdpSocketState, UdpSocket.close (UdpSocket.close s) = UdpSocket.close s := by
    intro s
    have := huc s
    unfold UdpSocket.isConnected at this
    unfold UdpSocket.close
    rw [if_pos]
    simpa using this
  refine ⟨htfix, htc, ?_, hufix, huc, ?_⟩
  · intro s n
    induction n generalizing s with
    | zero => simpa using htc s
    | succ n ih =>
      rw [Function.iterate_succ_apply]
      exact ih (TcpSocket.close s)
  · intro s n
    induction n generalizing s with
    | zero => simpa using huc s
    | succ n ih =>
      rw [Function.iterate_succ_apply]
      exact ih (UdpSocket.close s)

/-- Rounding 640 to three decimals leaves it unchanged. -/
theorem roundToDecimals_640 : roundToDecimals 640 3 = 640 := by
  norm_num [roundToDecimals, cround]

/-- C7: unit resolution consults the configured per-metric overrides
first (first conjunct: whenever the configured units map contains the
metric name, the configured unit is returned, regardless of what the
heuristics would say); a payload for the one-reading set
frame_width 640 with configured unit px carries value 640 and unit px
(second conjunct); an unconfigured brightness falls to the intensity
heuristic and an unconfigured foo to unknown (third and fourth
conjuncts); values are rounded to the fixed three-decimal precision
(fifth conjunct: 1.234567 rounds to 1.235). -/
theorem runOnce_unit_resolution_and_rounding :
    (∀ (units : List (String × String)) (name u : String),
        units.lookup name = some u → Sensor.inferUnitFromReadingName units name = u)
    ∧ (Sensor.buildJsonPayload ⟨⟨"cam-01", 1, [("frame_width", "px")], []⟩, "cam-01", 1⟩
          1700000000000 [("frame_width", 640)]).getKey "readings" =
        some (Json.obj [("frame_width",
          Json.obj [("value", Json.num 640), ("unit", Json.str "px")])])
    ∧ Sensor.inferUnitFromReadingName [] "brightness" = "intensity"
    ∧ Sensor.inferUnitFromReadingName [] "foo" = "unknown"
    ∧ roundToDecimals (1234567 / 1000000 : Rat) 3 = 1235 / 1000 := by
  refine ⟨?_, ?_, by decide, by decide, by norm_num [roundToDecimals, cround]⟩
  · intro units name u h
    unfold Sensor.inferUnitFromReadingName
    rw [h]
  · simp [Sensor.buildJsonPayload, Json.getKey, List.lookup, roundToDecimals_640,
      Sensor.inferUnitFromReadingName]

/-- C7 witness: the override conjunct applied to the configured map of
the claim at the metric name frame_width. -/
theorem runOnce_unit_resolution_and_rounding_witness :
    Sensor.inferUnitFromReadingName [("frame_width", "px")] "frame_width" = "px" :=
  runOnce_unit_resolution_and_rounding.1 [("frame_width", "px")] "frame_width" "px" (by decide)

/-- C8: constructing a Sensor raises a ConfigurationError exactly when
the identifier is empty or intervalSeconds is not positive (first
conjunct), and the constructor performs no I/O in either case (it is a
pure function of the configuration); every successfully constructed
state carries a non-empty identifier and a positive interval copied
from the configuration (second conjunct), and no operation of the class
mutates these members afterwards, so the invariant holds for the
lifetime of the object. -/
theorem sensor_ctor_validation :
    (∀ cfg : SensorConfig,
        (∃ msg, Sensor.construct cfg = .error (.configurationError msg)) ↔
          (cfg.sensorId = "" ∨ cfg.intervalSeconds ≤ 0))
    ∧ (∀ (cfg : SensorConfig) (st : SensorState), Sensor.construct cfg = .ok st →
        st.sensorId ≠ "" ∧ 0 < st.intervalSeconds ∧ st.config = cfg ∧
          st.sensorId = cfg.sensorId ∧ st.intervalSeconds = cfg.intervalSeconds) := by
  constructor
  · intro cfg
    unfold Sensor.construct
    split_ifs with h1 h2
    · exact ⟨fun _ => Or.inl h1, fun _ => ⟨_, rfl⟩⟩
    · exact ⟨fun _ => Or.inr h2, fun _ => ⟨_, rfl⟩⟩
    · constructor
      · rintro ⟨msg, hmsg⟩
        cases hmsg
      · rintro (h | h)
        · exact absurd h h1
        · exact absurd h h2
  · intro cfg st h
    unfold Sensor.construct at h
    split_ifs at h with h1 h2
    all_goals cases h
    exact ⟨h1, by show 0 < cfg.intervalSeconds; omega, rfl, rfl, rfl⟩

/-- C8 witness: the success conjunct applied to the valid configuration
(identifier temp-01, interval 1). -/
theorem sensor_ctor_validation_witness :
    (⟨⟨"temp-01", 1, [], []⟩, "temp-01", 1⟩ : SensorState).sensorId ≠ "" ∧
      (0 : Int) < (⟨⟨"temp-01", 1, [], []⟩, "temp-01", 1⟩ : SensorState).intervalSeconds ∧
      (⟨⟨"temp-01", 1, [], []⟩, "temp-01", 1⟩ : SensorState).config =
        (⟨"temp-01", 1, [], []⟩ : SensorConfig) ∧
      (⟨⟨"temp-01", 1, [], []⟩, "temp-01", 1⟩ : SensorState).sensorId =
        (⟨"temp-01", 1, [], []⟩ : SensorConfig).sensorId ∧
      (⟨⟨"temp-01", 1, [], []⟩, "temp-01", 1⟩ : SensorState).intervalSeconds =
        (⟨"temp-01", 1, [], []⟩ : SensorConfig).intervalSeconds :=
  sensor_ctor_validation.2 ⟨"temp-01", 1, [], []⟩ ⟨⟨"temp-01", 1, [], []⟩, "temp-01", 1⟩
    (by decide)

/-- C9: the loop checks the stop flag before each iteration, so a flag
already false at the first check produces no runOnce at all (first
conjunct); while the flag reads true, each iteration is exactly one
runOnce followed by one sleep of intervalSeconds, and the first false
read ends the loop with nothing after it, whatever would follow in the
flag trace (second conjunct: the events are exactly k copies of
tick-then-sleep, independent of the samples after the first false, so
after the signal is observed no further payload is sent and at most the
one already started sleep of one interval separates the signal from the
return); the number of payloads sent equals the number of true reads,
in particular at least one payload once a full iteration has completed
(third conjunct). -/
theorem run_cooperative_cancellation :
    (∀ (interval : Int) (rest : List Bool), Sensor.run interval (false :: rest) = [])
    ∧ (∀ (interval : Int) (k : Nat) (rest : List Bool),
        Sensor.run interval (List.replicate k true ++ false :: rest) =
          (List.replicate k [LoopEvent.tick, LoopEvent.sleepSecs interval]).flatten)
    ∧ (∀ (interval : Int) (k : Nat) (rest : List Bool),
        countTicks (Sensor.run interval (List.replicate k true ++ false :: rest)) = k) := by
  have h2 : ∀ (interval : Int) (k : Nat) (rest : List Bool),
      Sensor.run interval (List.replicate k true ++ false :: rest) =
        (List.replicate k [LoopEvent.tick, LoopEvent.sleepSecs interval]).flatten := by
    intro interval k rest
    induction k with
    | zero => simp [Sensor.run]
    | succ k ih =>
      rw [List.replicate_succ, List.cons_append, List.replicate_succ]
      rw [Sensor.run, ih]
      simp
  refine ⟨fun interval rest => rfl, h2, ?_⟩
  · intro interval k rest
    rw [h2]
    induction k with
    | zero => simp [countTicks]
    | succ k ih =>
      rw [List.replicate_succ]
      simp only [List.flatten_cons, countTicks, List.countP_append] at ih ⊢
      simp [ih, countTicks, LoopEvent.isTick]
      omega

/-- C9 witness: two true reads followed by a false read yield exactly
the events tick, sleep, tick, sleep and two sent payloads. -/
theorem run_cooperative_cancellation_witness :
    Sensor.run 7 (List.replicate 2 true ++ false :: [true]) =
      (List.replicate 2 [LoopEvent.tick, LoopEvent.sleepSecs 7]).flatten :=
  run_cooperative_cancellation.2.1 7 2 [true]

/-- C10: for every state, timestamp and reading set, the payload always
contains sensor_id (bound to the identifier) and timestamp_ms (first
and second conjuncts); the readings key is absent exactly when the
ReadingSet of the tick is empty, so an empty set omits the key rather
than sending an empty object (third conjunct); the metadata key is
absent exactly when the configured metadata mapping is empty (fourth
conjunct). -/
theorem payload_key_presence :
    ∀ (st : SensorState) (ts : Int) (readings : List (String × Rat)),
      (Sensor.buildJsonPayload st ts readings).getKey "sensor_id" = some (Json.str st.sensorId)
      ∧ (Sensor.buildJsonPayload st ts readings).getKey "timestamp_ms" = some (Json.int ts)
      ∧ ((Sensor.buildJsonPayload st ts readings).getKey "readings" = none ↔ readings = [])
      ∧ ((Sensor.buildJsonPayload st ts readings).getKey "metadata" = none ↔
          st.config.metadata = []) := by
  intro st ts readings
  by_cases hm : st.config.metadata = [] <;> by_cases hr : readings = [] <;>
    simp [Sensor.buildJsonPayload, Json.getKey, hm, hr, List.lookup]
